import Mathlib

/-!
Shallow embedding of libArcus Socket_p.h: the connection state machine,
the staged wire-frame decoder (receiveNextMessage), the error reporting
helpers (error / fatalError), the keepalive check (checkConnectionState)
and one driver-loop iteration (run loop body).  Socket I/O is abstracted
by oracles: each recv / send / accept outcome is an explicit input, so
the control flow of the source is modelled exactly while the operating
system is left nondeterministic.
-/

namespace Arcus

/-- Connection lifecycle states (SocketState from Types.h, spec section 3). -/
inductive SocketState where
  | Initial
  | Connecting
  | Opening
  | Listening
  | Connected
  | Closing
  | Closed
  | Error
  deriving DecidableEq, Repr

/-- Error codes from Error.h used by Socket_p.h (taxonomy per spec section 7). -/
inductive ErrorCode where
  | UnknownError
  | AcceptFailedError
  | ConnectionResetError
  | ReceiveFailedError
  | ParseFailedError
  | UnknownMessageTypeError
  deriving DecidableEq, Repr

/-- Error value: code plus fatal flag (the human-readable text is omitted). -/
structure Error where
  code : ErrorCode
  fatal : Bool
  deriving DecidableEq, Repr

/-- Parse stages of the in-progress inbound frame (WireMessage::MessageState).
The spec names them AwaitingHeader, AwaitingSize, AwaitingType, AwaitingPayload,
ReadyToDispatch; the source names them MessageStateHeader .. MessageStateDispatch. -/
inductive MessageState where
  | Header
  | Size
  | TypeField
  | Data
  | Dispatch
  deriving DecidableEq, Repr

/-- Modelled from the spec: WireMessage (WireMessage_p.h is not under src/).
Spec section 3 WireFrame: parse stage starting at AwaitingHeader, declared size,
bytes received, type tag, a payload buffer allocated once when the stage moves
from AwaitingType to AwaitingPayload, and a valid flag (initially true).
The payload buffer is modelled as the list of accumulated payload bytes plus
an allocation flag. -/
structure WireMessage where
  state : MessageState := .Header
  size : Nat := 0
  received : Nat := 0
  typeTag : Nat := 0
  dataAllocated : Bool := false
  data : List Nat := []
  valid : Bool := true
  deriving DecidableEq, Repr

/-- Modelled from the spec: WireMessage::getRemainingSize, declared size minus bytes received. -/
def WireMessage.getRemainingSize (m : WireMessage) : Nat := m.size - m.received

/-- Modelled from the spec: WireMessage::isComplete, all declared payload bytes received. -/
def WireMessage.isComplete (m : WireMessage) : Bool := decide (m.size ≤ m.received)

/-- Modelled from the spec: WireMessage::isValid, the valid flag. -/
def WireMessage.isValid (m : WireMessage) : Bool := m.valid

/-- Decoded application messages are abstracted to identifiers. -/
abbrev MessagePtr := Nat

/-- Listeners are abstracted to identifiers; `listeners` keeps registration order. -/
abbrev Listener := Nat

/-- Notification kinds delivered to a SocketListener. -/
inductive Event where
  | errorEvt (e : Error)
  | stateChanged (s : SocketState)
  | messageReceived
  deriving DecidableEq, Repr

/-- A notification delivered to one listener. -/
abbrev Notification := Listener × Event

/-- Deliver one event to every registered listener, in registration order. -/
def broadcast (ls : List Listener) (e : Event) : List Notification :=
  ls.map (fun l => (l, e))

/-- State of SocketPrivate that the claims are about (socket handles, address
and port are not modelled; thread identity is implicit). -/
structure SocketPrivate where
  state : SocketState := .Initial
  next_state : SocketState := .Initial
  listeners : List Listener := []
  current_message : Option WireMessage := none
  sendQueue : List MessagePtr := []
  receiveQueue : List MessagePtr := []
  last_error : Option Error := none
  lastKeepAliveSent : Int := 0
  deriving DecidableEq, Repr

/-- Socket_p.h lines 131-140: record a non-fatal error as last_error and notify
every listener.  Returns the new state, the Error raised and the notifications. -/
def SocketPrivate.error (p : SocketPrivate) (c : ErrorCode) :
    SocketPrivate × Error × List Notification :=
  let e : Error := { code := c, fatal := false }
  ({ p with last_error := some e }, e, broadcast p.listeners (.errorEvt e))

/-- Socket_p.h lines 143-156: record a fatal error as last_error, discard the
in-progress inbound frame, force next_state to Error, notify every listener. -/
def SocketPrivate.fatalError (p : SocketPrivate) (c : ErrorCode) :
    SocketPrivate × Error × List Notification :=
  let e : Error := { code := c, fatal := true }
  ({ p with last_error := some e, current_message := none, next_state := .Error }, e,
    broadcast p.listeners (.errorEvt e))

/-- Socket_p.h lines 439-466 (handleMessage): unknown type is a non-fatal error
and the frame is dropped; a parse failure is a non-fatal error; otherwise the
decoded message is appended to receiveQueue and messageReceived is broadcast.
The type registry and the protobuf parse are abstracted by the two booleans.
Returns (new state, notifications, errors raised). -/
def SocketPrivate.handleMessage (p : SocketPrivate) (wm : WireMessage)
    (typeKnown parseOk : Bool) : SocketPrivate × List Notification × List Error :=
  if typeKnown = false then
    let q := p.error .UnknownMessageTypeError
    (q.1, q.2.2, [q.2.1])
  else if parseOk = false then
    let q := p.error .ParseFailedError
    (q.1, q.2.2, [q.2.1])
  else
    ({ p with receiveQueue := p.receiveQueue ++ [wm.typeTag] },
      broadcast p.listeners .messageReceived, [])

/-- The wire signature constant ARCUS_SIGNATURE (Socket_p.h line 54). -/
def ARCUS_SIGNATURE : Nat := 0x2BAD

/-- Signed 32-bit interpretation of a wire word, as ntohl into an int32_t. -/
def toSigned (w : Nat) : Int :=
  let v : Nat := w % 2 ^ 32
  if v < 2 ^ 31 then (v : Int) else (v : Int) - 2 ^ 32

/-- The SIG macro (Socket_p.h line 55): top 16 bits of the 32-bit header word. -/
def SIG (h : Int) : Nat := ((h % (2 ^ 32 : Int)).toNat) >>> 16

/-- Outcome of a 4-byte recv inside readInt32: either the full 4 bytes arrived,
giving the 32-bit word, or fewer than 4 did (wouldBlock is the errno == EAGAIN
distinction the decoder makes). -/
inductive Int32Read where
  | ok (w : Nat)
  | fail (wouldBlock : Bool)
  deriving DecidableEq, Repr

/-- Outcome of a recv inside readBytes: some prefix of the requested bytes, or
recv returned -1 (wouldBlock is the errno == EAGAIN distinction). -/
inductive BytesRead where
  | ok (bytes : List Nat)
  | fail (wouldBlock : Bool)
  deriving DecidableEq, Repr

/-- Socket_p.h lines 412-424 (readInt32): on a full 4-byte read the value is
decoded and written to dest (modelled as `some`); otherwise -1 is returned and
dest is left untouched (modelled as `none`). -/
def readInt32 (r : Int32Read) : Option Int :=
  match r with
  | .ok w => some (toSigned w)
  | .fail _ => none

/-- Bytes consumed from the socket by one readInt32 call (partial bytes of a
short read are not tracked). -/
def int32Consumed (r : Int32Read) : Nat :=
  match r with
  | .ok _ => 4
  | .fail _ => 0

/-- Socket_p.h lines 426-437 (readBytes): recv never returns more than the
requested size, so the oracle bytes are truncated to the request. -/
def readBytes (size : Nat) (r : BytesRead) : Option (List Nat) :=
  match r with
  | .ok bytes => some (bytes.take size)
  | .fail _ => none

/-- Oracle inputs consumed by one receiveNextMessage call.  Each field is the
outcome of the corresponding socket read if that read is reached; unreached
fields are ignored.  allocOk is whether WireMessage::allocateData succeeds
(false models std bad_alloc); typeKnown and parseOk abstract handleMessage's
collaborators. -/
structure RecvInput where
  headerRead : Int32Read := .fail true
  sizeRead : Int32Read := .fail true
  typeRead : Int32Read := .fail true
  allocOk : Bool := true
  dataRead : BytesRead := .fail true
  typeKnown : Bool := true
  parseOk : Bool := true
  deriving DecidableEq, Repr

/-- Result of one receiveNextMessage call: the new socket state, the
notifications delivered, the errors raised (one entry per error()/fatalError()
call, independent of how many listeners are registered), the frame passed to
handleMessage if any, and the bytes consumed by successful reads. -/
structure RecvOut where
  sp : SocketPrivate
  events : List Notification := []
  errorsRaised : List Error := []
  dispatched : Option WireMessage := none
  consumed : Nat := 0
  deriving DecidableEq, Repr

/-- Helper: SocketPrivate with its current_message field replaced. -/
def setp (p : SocketPrivate) (cur : Option WireMessage) : SocketPrivate :=
  { p with current_message := cur }

/-- Socket_p.h lines 405-409: if the current frame is in the Dispatch stage,
handleMessage is invoked on it and the frame is discarded.  (When the frame was
reset earlier in the same call the source would dereference a null pointer
here; the model skips the block, which is the only defined reading.) -/
def dispatchStage (p : SocketPrivate) (cur : Option WireMessage) (inp : RecvInput)
    (consumed : Nat) : RecvOut :=
  match cur with
  | some m =>
    if m.state = .Dispatch then
      let q := (setp p (some m)).handleMessage m inp.typeKnown inp.parseOk
      { sp := { q.1 with current_message := none }, events := q.2.1,
        errorsRaised := q.2.2, dispatched := some m, consumed := consumed }
    else { sp := setp p (some m), consumed := consumed }
  | none => { sp := setp p none, consumed := consumed }

/-- Socket_p.h lines 376-403 (MessageStateData): read the remaining payload
bytes; -1 with EAGAIN keeps the frame for the next tick, -1 otherwise discards
the frame; received bytes accumulate; a frame that completes while invalid is
discarded without dispatch; a complete valid frame moves to Dispatch. -/
def dataStage (p : SocketPrivate) (cm : WireMessage) (inp : RecvInput)
    (consumed : Nat) : RecvOut :=
  if cm.state = .Data then
    match inp.dataRead with
    | .fail wouldBlock =>
      if wouldBlock then dispatchStage p (some cm) inp consumed
      else dispatchStage p none inp consumed
    | .ok bytes =>
      let got := bytes.take cm.getRemainingSize
      let cm1 : WireMessage :=
        { cm with data := cm.data ++ got, received := cm.received + got.length }
      if cm1.isComplete then
        if cm1.isValid = false then
          { sp := setp p none, consumed := consumed + got.length }
        else dispatchStage p (some { cm1 with state := .Dispatch }) inp
          (consumed + got.length)
      else dispatchStage p (some cm1) inp (consumed + got.length)
  else dispatchStage p (some cm) inp consumed

/-- Socket_p.h lines 359-373: the tail of the type stage.  allocateData is
attempted; bad_alloc raises the fatal out-of-memory error (the source passes
ErrorCode::ReceiveFailedError with the text Out of memory); on success the type
tag is stored, the stage moves to Data. -/
def typeAlloc (p : SocketPrivate) (cm : WireMessage) (inp : RecvInput) (ty : Nat)
    (consumed : Nat) : RecvOut :=
  if inp.allocOk = false then
    let q := (setp p (some cm)).fatalError .ReceiveFailedError
    { sp := q.1, events := q.2.2, errorsRaised := [q.2.1], consumed := consumed }
  else
    dataStage p { cm with dataAllocated := true, typeTag := ty, state := .Data } inp
      consumed

/-- Socket_p.h lines 346-374 (MessageStateType): a failed type read with EAGAIN
returns and retries next tick; a failed type read otherwise marks the frame
invalid (the type variable stays 0) and continues; then the payload buffer is
allocated. -/
def typeStage (p : SocketPrivate) (cm : WireMessage) (inp : RecvInput)
    (consumed : Nat) : RecvOut :=
  if cm.state = .TypeField then
    match inp.typeRead with
    | .fail true => { sp := setp p (some cm), consumed := consumed }
    | .fail false => typeAlloc p { cm with valid := false } inp 0 consumed
    | .ok w => typeAlloc p cm inp (w % 2 ^ 32) (consumed + 4)
  else dataStage p cm inp consumed

/-- Socket_p.h lines 321-344 (MessageStateSize): a failed size read with EAGAIN
returns; a failed size read otherwise raises the non-fatal Size invalid error;
a negative decoded size raises the non-fatal Size invalid error; otherwise the
size is stored and the stage moves to TypeField. -/
def sizeStage (p : SocketPrivate) (cm : WireMessage) (inp : RecvInput)
    (consumed : Nat) : RecvOut :=
  if cm.state = .Size then
    match inp.sizeRead with
    | .fail wouldBlock =>
      if wouldBlock then { sp := setp p (some cm), consumed := consumed }
      else
        let q := (setp p (some cm)).error .ReceiveFailedError
        { sp := q.1, events := q.2.2, errorsRaised := [q.2.1], consumed := consumed }
    | .ok w =>
      let size := toSigned w
      if size < 0 then
        let q := (setp p (some cm)).error .ReceiveFailedError
        { sp := q.1, events := q.2.2, errorsRaised := [q.2.1], consumed := consumed + 4 }
      else
        typeStage p { cm with size := size.toNat, state := .TypeField } inp
          (consumed + 4)
  else typeStage p cm inp consumed

/-- Socket_p.h lines 294-410 (receiveNextMessage): a fresh frame is created
lazily; in the Header stage the readInt32 result is ignored and the header
variable keeps its 0 initialisation on a short read; a zero header is a
keepalive and the call returns; a wrong signature raises the non-fatal Header
mismatch error; otherwise the stage moves to Size and the later stage blocks of
the same call run in order. -/
def receiveNextMessage (p : SocketPrivate) (inp : RecvInput) : RecvOut :=
  let cm0 := p.current_message.getD {}
  if cm0.state = .Header then
    let header : Int := (readInt32 inp.headerRead).getD 0
    if header = 0 then
      { sp := setp p (some cm0), consumed := int32Consumed inp.headerRead }
    else if SIG header ≠ ARCUS_SIGNATURE then
      let q := (setp p (some cm0)).error .ReceiveFailedError
      { sp := q.1, events := q.2.2, errorsRaised := [q.2.1],
        consumed := int32Consumed inp.headerRead }
    else
      sizeStage p { cm0 with state := .Size } inp (int32Consumed inp.headerRead)
  else sizeStage p cm0 inp 0

/-- keepAliveRate (Socket_p.h line 119): milliseconds between keepalives. -/
def keepAliveRate : Int := 500

/-- Socket_p.h lines 478-493 (checkConnectionState): if strictly more than
keepAliveRate milliseconds elapsed since lastKeepAliveSent, send a 4-byte
all-zero keepalive; if that send fails, raise the non-fatal ConnectionResetError
and set next_state to Closing; lastKeepAliveSent is set to now either way.
Returns (new state, notifications, errors raised, keepalive frames sent). -/
def SocketPrivate.checkConnectionState (p : SocketPrivate) (now : Int)
    (sendOk : Bool) : SocketPrivate × List Notification × List Error × List (List Nat) :=
  if now - p.lastKeepAliveSent > keepAliveRate then
    if sendOk = false then
      let q := p.error .ConnectionResetError
      ({ q.1 with next_state := .Closing, lastKeepAliveSent := now },
        q.2.2, [q.2.1], [[0, 0, 0, 0]])
    else ({ p with lastKeepAliveSent := now }, [], [], [[0, 0, 0, 0]])
  else (p, [], [], [])

/-- Socket_p.h lines 215-222: the Connected tick moves every queued message
from sendQueue (front first) into the local messagesToSend list under the lock. -/
def drainLoop : List MessagePtr → List MessagePtr → List MessagePtr × List MessagePtr
  | acc, [] => (acc, [])
  | acc, m :: rest => drainLoop (acc ++ [m]) rest

/-- Oracle inputs for one Connected tick. -/
structure ConnectedInput where
  recv : RecvInput := {}
  now : Int := 0
  keepaliveSendOk : Bool := true
  deriving DecidableEq, Repr

/-- Result of one driver tick: state, notifications, errors raised, messages
handed to sendMessage in order, keepalive frames sent, dispatched frame. -/
structure TickOut where
  sp : SocketPrivate
  events : List Notification := []
  errorsRaised : List Error := []
  sent : List MessagePtr := []
  keepalivesSent : List (List Nat) := []
  dispatched : Option WireMessage := none
  deriving DecidableEq, Repr

/-- Socket_p.h lines 211-237 (run, Connected case): drain the outbound queue
atomically, send each drained message in order (send results are unchecked),
run one receive cycle, then run checkConnectionState unless next_state is
Error. -/
def connectedAction (p : SocketPrivate) (inp : ConnectedInput) : TickOut :=
  let d := drainLoop [] p.sendQueue
  let p1 := { p with sendQueue := d.2 }
  let r := receiveNextMessage p1 inp.recv
  if r.sp.next_state ≠ SocketState.Error then
    let c := r.sp.checkConnectionState inp.now inp.keepaliveSendOk
    { sp := c.1, events := r.events ++ c.2.1, errorsRaised := r.errorsRaised ++ c.2.2.1,
      sent := d.1, keepalivesSent := c.2.2.2, dispatched := r.dispatched }
  else
    { sp := r.sp, events := r.events, errorsRaised := r.errorsRaised, sent := d.1,
      dispatched := r.dispatched }

/-- Socket_p.h lines 192-209 (run, Listening case): when accept returns -1 the
fatal AcceptFailedError is raised and then next_state is set to Connected; on
success no modelled field changes (the accepted socket is adopted). -/
def listeningAction (p : SocketPrivate) (acceptOk : Bool) : TickOut :=
  if acceptOk = false then
    let q := p.fatalError .AcceptFailedError
    { sp := { q.1 with next_state := .Connected }, events := q.2.2,
      errorsRaised := [q.2.1] }
  else { sp := p }

/-- Oracle inputs for one driver tick. -/
structure TickInput where
  connectOk : Bool := false
  bindOk : Bool := false
  acceptOk : Bool := true
  connected : ConnectedInput := {}
  deriving DecidableEq, Repr

/-- Socket_p.h lines 163-250: the per-state action of one driver-loop
iteration, before the transition commit. -/
def tickAction (p : SocketPrivate) (inp : TickInput) : TickOut :=
  match p.state with
  | .Connecting =>
    if inp.connectOk then { sp := { p with next_state := .Connected } } else { sp := p }
  | .Opening =>
    if inp.bindOk then { sp := { p with next_state := .Listening } } else { sp := p }
  | .Listening => listeningAction p inp.acceptOk
  | .Connected => connectedAction p inp.connected
  | .Closing => { sp := { p with next_state := .Closed } }
  | _ => { sp := p }

/-- Socket_p.h lines 252-260: at the end of each iteration, if next_state
differs from state, state becomes next_state and stateChanged is broadcast to
every listener in registration order. -/
def commitTransition (p : SocketPrivate) : SocketPrivate × List Notification :=
  if p.next_state ≠ p.state then
    ({ p with state := p.next_state }, broadcast p.listeners (.stateChanged p.next_state))
  else (p, [])

/-- One full driver-loop iteration: the per-state action then the commit. -/
def tick (p : SocketPrivate) (inp : TickInput) : TickOut :=
  let a := tickAction p inp
  let c := commitTransition a.sp
  { a with sp := c.1, events := a.events ++ c.2 }

/-- Socket_p.h line 161: the driver loop continues while state is neither
Closed nor Error. -/
def loopGuard (p : SocketPrivate) : Bool :=
  decide (p.state ≠ SocketState.Closed) && decide (p.state ≠ SocketState.Error)

/-- Projection of the SocketPrivate fields that the receive pipeline never
touches: state, sendQueue, listeners, lastKeepAliveSent. -/
def frameFields (s : SocketPrivate) : SocketState × List MessagePtr × List Listener × Int :=
  (s.state, s.sendQueue, s.listeners, s.lastKeepAliveSent)

/-- The fatal error value raised at the payload-allocation site (the source
passes ErrorCode::ReceiveFailedError with the text Out of memory). -/
def oomError : Error := { code := .ReceiveFailedError, fatal := true }

/-- The fatal error value raised when accept fails. -/
def acceptError : Error := { code := .AcceptFailedError, fatal := true }

/-- The non-fatal error value raised when the keepalive send fails. -/
def creError : Error := { code := .ConnectionResetError, fatal := false }

/-- Notification lists that contain no stateChanged event. -/
def noStateChanged (evs : List Notification) : Prop :=
  ∀ n ∈ evs, ∀ s, n.2 ≠ Event.stateChanged s

/-- Whether an event is a stateChanged notification. -/
def Event.isStateChanged : Event → Bool
  | .stateChanged _ => true
  | _ => false

/-- Fixture: a listening socket with one registered listener. -/
def listenFix : SocketPrivate :=
  { state := SocketState.Listening, next_state := SocketState.Listening, listeners := [0] }

/-- Fixture: a connected socket whose inbound frame is at the type stage. -/
def oomFix : SocketPrivate :=
  { state := SocketState.Connected, next_state := SocketState.Connected, listeners := [1],
    current_message := some { state := MessageState.TypeField, size := 2 } }

/-- Fixture: a tick input whose type read succeeds but whose payload allocation fails. -/
def oomFixInput : TickInput :=
  { connected := { recv := { typeRead := Int32Read.ok 5, allocOk := false } } }

/-- Fixture: a socket whose inbound frame is at the size stage. -/
def sizeFix : SocketPrivate :=
  { listeners := [2], current_message := some { state := MessageState.Size } }

/-- Fixture: a connected socket that last sent a keepalive at time 0. -/
def kaFix : SocketPrivate :=
  { state := SocketState.Connected, next_state := SocketState.Connected, listeners := [4] }

/-- Fixture: a quiet tick at time 501 whose keepalive send fails. -/
def kaFixInput : TickInput :=
  { connected := { now := 501, keepaliveSendOk := false } }

/-- Fixture: a connected socket with three queued outbound messages. -/
def fifoFix : SocketPrivate :=
  { state := SocketState.Connected, next_state := SocketState.Connected,
    sendQueue := [5, 6, 7] }

/-- Fixture: a socket whose inbound frame is at the type stage, size 3. -/
def typeFailFix : SocketPrivate :=
  { listeners := [6], current_message := some { state := MessageState.TypeField, size := 3 } }

/-- Fixture: a receive input whose type read fails hard and whose payload read
would block. -/
def typeFailInput : RecvInput :=
  { typeRead := Int32Read.fail false, allocOk := true, dataRead := BytesRead.fail true }

/-! Helper lemmas: fields preserved by the receive pipeline. -/

theorem dispatchStage_frame (p : SocketPrivate) (cur : Option WireMessage)
    (inp : RecvInput) (c : Nat) :
    frameFields (dispatchStage p cur inp c).sp = frameFields p := by
  unfold dispatchStage setp SocketPrivate.handleMessage SocketPrivate.error
  rcases cur with _ | m <;> dsimp only <;> repeat' (first | split | dsimp only)
  all_goals rfl

theorem dataStage_frame (p : SocketPrivate) (cm : WireMessage)
    (inp : RecvInput) (c : Nat) :
    frameFields (dataStage p cm inp c).sp = frameFields p := by
  unfold dataStage
  repeat' (first | split | dsimp only)
  all_goals first
    | rfl
    | exact dispatchStage_frame ..

theorem typeAlloc_frame (p : SocketPrivate) (cm : WireMessage)
    (inp : RecvInput) (ty c : Nat) :
    frameFields (typeAlloc p cm inp ty c).sp = frameFields p := by
  unfold typeAlloc setp SocketPrivate.fatalError
  split
  · rfl
  · exact dataStage_frame ..

theorem typeStage_frame (p : SocketPrivate) (cm : WireMessage)
    (inp : RecvInput) (c : Nat) :
    frameFields (typeStage p cm inp c).sp = frameFields p := by
  unfold typeStage
  repeat' (first | split | dsimp only)
  all_goals first
    | rfl
    | exact typeAlloc_frame ..
    | exact dataStage_frame ..

theorem sizeStage_frame (p : SocketPrivate) (cm : WireMessage)
    (inp : RecvInput) (c : Nat) :
    frameFields (sizeStage p cm inp c).sp = frameFields p := by
  unfold sizeStage setp SocketPrivate.error
  repeat' (first | split | dsimp only)
  all_goals first
    | rfl
    | exact typeStage_frame ..

theorem receive_frame (p : SocketPrivate) (inp : RecvInput) :
    frameFields (receiveNextMessage p inp).sp = frameFields p := by
  unfold receiveNextMessage setp SocketPrivate.error
  repeat' (first | split | dsimp only)
  all_goals first
    | rfl
    | exact sizeStage_frame ..

theorem receive_state (p : SocketPrivate) (inp : RecvInput) :
    (receiveNextMessage p inp).sp.state = p.state :=
  congrArg (fun t => t.1) (receive_frame p inp)

theorem receive_sendQueue (p : SocketPrivate) (inp : RecvInput) :
    (receiveNextMessage p inp).sp.sendQueue = p.sendQueue :=
  congrArg (fun t => t.2.1) (receive_frame p inp)

theorem receive_listeners (p : SocketPrivate) (inp : RecvInput) :
    (receiveNextMessage p inp).sp.listeners = p.listeners :=
  congrArg (fun t => t.2.2.1) (receive_frame p inp)

theorem receive_lastKA (p : SocketPrivate) (inp : RecvInput) :
    (receiveNextMessage p inp).sp.lastKeepAliveSent = p.lastKeepAliveSent :=
  congrArg (fun t => t.2.2.2) (receive_frame p inp)

/-! Helper lemmas: next_state is only ever forced to Error by the allocation
failure, and then exactly one fatal error is raised. -/

theorem dispatchStage_next (p : SocketPrivate) (cur : Option WireMessage)
    (inp : RecvInput) (c : Nat) :
    (dispatchStage p cur inp c).sp.next_state = p.next_state := by
  unfold dispatchStage setp SocketPrivate.handleMessage SocketPrivate.error
  rcases cur with _ | m <;> dsimp only <;> repeat' (first | split | dsimp only)

theorem dataStage_next (p : SocketPrivate) (cm : WireMessage)
    (inp : RecvInput) (c : Nat) :
    (dataStage p cm inp c).sp.next_state = p.next_state := by
  unfold dataStage
  repeat' (first | split | dsimp only)
  all_goals first
    | rfl
    | exact dispatchStage_next ..

theorem typeAlloc_next (p : SocketPrivate) (cm : WireMessage)
    (inp : RecvInput) (ty c : Nat) :
    (typeAlloc p cm inp ty c).sp.next_state = p.next_state ∨
      ((typeAlloc p cm inp ty c).sp.next_state = SocketState.Error ∧
        inp.allocOk = false ∧ (typeAlloc p cm inp ty c).errorsRaised = [oomError]) := by
  unfold typeAlloc setp SocketPrivate.fatalError
  split
  · right
    refine ⟨rfl, by assumption, rfl⟩
  · left
    exact dataStage_next ..

theorem typeStage_next (p : SocketPrivate) (cm : WireMessage)
    (inp : RecvInput) (c : Nat) :
    (typeStage p cm inp c).sp.next_state = p.next_state ∨
      ((typeStage p cm inp c).sp.next_state = SocketState.Error ∧
        inp.allocOk = false ∧ (typeStage p cm inp c).errorsRaised = [oomError]) := by
  unfold typeStage
  repeat' (first | split | dsimp only)
  all_goals first
    | exact Or.inl rfl
    | exact typeAlloc_next ..
    | exact Or.inl (dataStage_next ..)

theorem sizeStage_next (p : SocketPrivate) (cm : WireMessage)
    (inp : RecvInput) (c : Nat) :
    (sizeStage p cm inp c).sp.next_state = p.next_state ∨
      ((sizeStage p cm inp c).sp.next_state = SocketState.Error ∧
        inp.allocOk = false ∧ (sizeStage p cm inp c).errorsRaised = [oomError]) := by
  unfold sizeStage setp SocketPrivate.error
  repeat' (first | split | dsimp only)
  all_goals first
    | exact Or.inl rfl
    | exact typeStage_next ..

theorem receive_next (p : SocketPrivate) (inp : RecvInput) :
    (receiveNextMessage p inp).sp.next_state = p.next_state ∨
      ((receiveNextMessage p inp).sp.next_state = SocketState.Error ∧
        inp.allocOk = false ∧ (receiveNextMessage p inp).errorsRaised = [oomError]) := by
  unfold receiveNextMessage setp SocketPrivate.error
  repeat' (first | split | dsimp only)
  all_goals first
    | exact Or.inl rfl
    | exact sizeStage_next ..

theorem receive_no_error_next (p : SocketPrivate) (inp : RecvInput)
    (h : (receiveNextMessage p inp).errorsRaised = []) :
    (receiveNextMessage p inp).sp.next_state = p.next_state := by
  rcases receive_next p inp with h1 | ⟨_, _, h3⟩
  · exact h1
  · rw [h] at h3
    cases h3

/-! Helper lemmas: the per-state action never emits a stateChanged event. -/

theorem broadcast_snd {ls : List Listener} {e : Event} {n : Notification}
    (h : n ∈ broadcast ls e) : n.2 = e := by
  simp only [broadcast, List.mem_map] at h
  obtain ⟨l, _, rfl⟩ := h
  rfl

theorem noStateChanged_nil : noStateChanged [] := by
  intro n hn
  cases hn

theorem noStateChanged_broadcast_error (ls : List Listener) (e : Error) :
    noStateChanged (broadcast ls (.errorEvt e)) := by
  intro n hn s
  rw [broadcast_snd hn]
  simp

theorem noStateChanged_broadcast_mr (ls : List Listener) :
    noStateChanged (broadcast ls .messageReceived) := by
  intro n hn s
  rw [broadcast_snd hn]
  simp

theorem noStateChanged_append {a b : List Notification}
    (ha : noStateChanged a) (hb : noStateChanged b) : noStateChanged (a ++ b) := by
  intro n hn s
  rcases List.mem_append.mp hn with h | h
  · exact ha n h s
  · exact hb n h s

theorem handleMessage_noSC (p : SocketPrivate) (wm : WireMessage) (tk pk : Bool) :
    noStateChanged (p.handleMessage wm tk pk).2.1 := by
  unfold SocketPrivate.handleMessage SocketPrivate.error
  repeat' (first | split | dsimp only)
  all_goals first
    | apply noStateChanged_broadcast_error
    | apply noStateChanged_broadcast_mr

theorem dispatchStage_noSC (p : SocketPrivate) (cur : Option WireMessage)
    (inp : RecvInput) (c : Nat) :
    noStateChanged (dispatchStage p cur inp c).events := by
  unfold dispatchStage
  rcases cur with _ | m <;> dsimp only <;> repeat' (first | split | dsimp only)
  all_goals first
    | exact noStateChanged_nil
    | apply handleMessage_noSC

theorem dataStage_noSC (p : SocketPrivate) (cm : WireMessage)
    (inp : RecvInput) (c : Nat) :
    noStateChanged (dataStage p cm inp c).events := by
  unfold dataStage
  repeat' (first | split | dsimp only)
  all_goals first
    | exact noStateChanged_nil
    | apply dispatchStage_noSC

theorem typeAlloc_noSC (p : SocketPrivate) (cm : WireMessage)
    (inp : RecvInput) (ty c : Nat) :
    noStateChanged (typeAlloc p cm inp ty c).events := by
  unfold typeAlloc setp SocketPrivate.fatalError
  repeat' (first | split | dsimp only)
  all_goals first
    | apply noStateChanged_broadcast_error
    | apply dataStage_noSC

theorem typeStage_noSC (p : SocketPrivate) (cm : WireMessage)
    (inp : RecvInput) (c : Nat) :
    noStateChanged (typeStage p cm inp c).events := by
  unfold typeStage
  repeat' (first | split | dsimp only)
  all_goals first
    | exact noStateChanged_nil
    | apply typeAlloc_noSC
    | apply dataStage_noSC

theorem sizeStage_noSC (p : SocketPrivate) (cm : WireMessage)
    (inp : RecvInput) (c : Nat) :
    noStateChanged (sizeStage p cm inp c).events := by
  unfold sizeStage setp SocketPrivate.error
  repeat' (first | split | dsimp only)
  all_goals first
    | exact noStateChanged_nil
    | apply noStateChanged_broadcast_error
    | apply typeStage_noSC

theorem receive_noSC (p : SocketPrivate) (inp : RecvInput) :
    noStateChanged (receiveNextMessage p inp).events := by
  unfold receiveNextMessage setp SocketPrivate.error
  repeat' (first | split | dsimp only)
  all_goals first
    | exact noStateChanged_nil
    | apply noStateChanged_broadcast_error
    | apply sizeStage_noSC

theorem check_noSC (p : SocketPrivate) (now : Int) (sendOk : Bool) :
    noStateChanged (p.checkConnectionState now sendOk).2.1 := by
  unfold SocketPrivate.checkConnectionState SocketPrivate.error
  repeat' (first | split | dsimp only)
  all_goals first
    | exact noStateChanged_nil
    | apply noStateChanged_broadcast_error

theorem tickAction_noSC (p : SocketPrivate) (inp : TickInput) :
    noStateChanged (tickAction p inp).events := by
  unfold tickAction listeningAction connectedAction SocketPrivate.fatalError
  repeat' (first | split | dsimp only)
  all_goals first
    | exact noStateChanged_nil
    | apply noStateChanged_broadcast_error
    | exact noStateChanged_append (receive_noSC _ _) (check_noSC _ _ _)
    | apply receive_noSC

/-! Helper lemmas: handleMessage is reached only through the Dispatch stage. -/

theorem dispatchStage_dispatched (p : SocketPrivate) (cur : Option WireMessage)
    (inp : RecvInput) (c : Nat) (m : WireMessage)
    (h : (dispatchStage p cur inp c).dispatched = some m) :
    cur = some m ∧ m.state = MessageState.Dispatch := by
  unfold dispatchStage at h
  rcases cur with _ | m0
  · cases h
  · dsimp only at h
    split at h
    case isTrue hd =>
      dsimp only at h
      injection h with h
      subst h
      exact ⟨rfl, hd⟩
    case isFalse hd => cases h

theorem dataStage_dispatched (p : SocketPrivate) (cm : WireMessage)
    (inp : RecvInput) (c : Nat) (m : WireMessage)
    (h : (dataStage p cm inp c).dispatched = some m) :
    (m.isComplete = true ∧ m.valid = true) ∨
      (m = cm ∧ m.state = MessageState.Dispatch) := by
  unfold dataStage at h
  split at h
  case isTrue hData =>
    split at h
    case h_1 wb =>
      split at h
      case isTrue =>
        obtain ⟨h1, h2⟩ := dispatchStage_dispatched _ _ _ _ _ h
        injection h1 with h1
        exact Or.inr ⟨h1.symm, h2⟩
      case isFalse =>
        obtain ⟨h1, _⟩ := dispatchStage_dispatched _ _ _ _ _ h
        cases h1
    case h_2 bytes =>
      dsimp only at h
      split at h
      case isTrue hComp =>
        split at h
        case isTrue hValid => cases h
        case isFalse hValid =>
          obtain ⟨h1, _⟩ := dispatchStage_dispatched _ _ _ _ _ h
          injection h1 with h1
          left
          subst h1
          constructor
          · simpa [WireMessage.isComplete] using hComp
          · simpa [WireMessage.isValid] using hValid
      case isFalse hComp =>
        obtain ⟨h1, h2⟩ := dispatchStage_dispatched _ _ _ _ _ h
        injection h1 with h1
        exfalso
        subst h1
        rw [hData] at h2
        cases h2
  case isFalse hData =>
    obtain ⟨h1, h2⟩ := dispatchStage_dispatched _ _ _ _ _ h
    injection h1 with h1
    exact Or.inr ⟨h1.symm, h2⟩

theorem typeAlloc_dispatched (p : SocketPrivate) (cm : WireMessage)
    (inp : RecvInput) (ty c : Nat) (m : WireMessage)
    (h : (typeAlloc p cm inp ty c).dispatched = some m) :
    m.isComplete = true ∧ m.valid = true := by
  unfold typeAlloc at h
  split at h
  · cases h
  · rcases dataStage_dispatched _ _ _ _ _ h with h1 | ⟨h1, h2⟩
    · exact h1
    · exfalso
      subst h1
      cases h2

theorem typeStage_dispatched (p : SocketPrivate) (cm : WireMessage)
    (inp : RecvInput) (c : Nat) (m : WireMessage)
    (h : (typeStage p cm inp c).dispatched = some m) :
    (m.isComplete = true ∧ m.valid = true) ∨
      (m = cm ∧ m.state = MessageState.Dispatch) := by
  unfold typeStage at h
  split at h
  case isTrue ht =>
    split at h
    case h_1 => cases h
    case h_2 => exact Or.inl (typeAlloc_dispatched _ _ _ _ _ _ h)
    case h_3 => exact Or.inl (typeAlloc_dispatched _ _ _ _ _ _ h)
  case isFalse ht => exact dataStage_dispatched _ _ _ _ _ h

theorem sizeStage_dispatched (p : SocketPrivate) (cm : WireMessage)
    (inp : RecvInput) (c : Nat) (m : WireMessage)
    (h : (sizeStage p cm inp c).dispatched = some m) :
    (m.isComplete = true ∧ m.valid = true) ∨
      (m = cm ∧ m.state = MessageState.Dispatch) := by
  unfold sizeStage at h
  split at h
  case isTrue hs =>
    split at h
    case h_1 wb =>
      split at h
      · cases h
      · cases h
    case h_2 w =>
      dsimp only at h
      split at h
      · cases h
      · rcases typeStage_dispatched _ _ _ _ _ h with h1 | ⟨h1, h2⟩
        · exact Or.inl h1
        · exfalso
          subst h1
          cases h2
  case isFalse hs => exact typeStage_dispatched _ _ _ _ _ h

theorem receive_dispatched (p : SocketPrivate) (inp : RecvInput) (m : WireMessage)
    (h : (receiveNextMessage p inp).dispatched = some m) :
    (m.isComplete = true ∧ m.valid = true) ∨
      (p.current_message = some m ∧ m.state = MessageState.Dispatch) := by
  unfold receiveNextMessage at h
  dsimp only at h
  split at h
  case isTrue hh =>
    split at h
    · cases h
    · split at h
      · cases h
      · rcases sizeStage_dispatched _ _ _ _ _ h with h1 | ⟨h1, h2⟩
        · exact Or.inl h1
        · exfalso
          subst h1
          cases h2
  case isFalse hh =>
    rcases sizeStage_dispatched _ _ _ _ _ h with h1 | ⟨h1, h2⟩
    · exact Or.inl h1
    · rcases hp : p.current_message with _ | cm0
      · rw [hp] at hh
        simp at hh
      · rw [hp] at h1
        simp only [Option.getD_some] at h1
        exact Or.inr ⟨by rw [h1], h2⟩

/-! Helper lemmas: the driver tick, the transition commit and the keepalive. -/

theorem drainLoop_spec (q acc : List MessagePtr) :
    drainLoop acc q = (acc ++ q, []) := by
  induction q generalizing acc with
  | nil => simp [drainLoop]
  | cons m rest ih => simp [drainLoop, ih]

theorem check_frame (p : SocketPrivate) (now : Int) (sendOk : Bool) :
    (p.checkConnectionState now sendOk).1.state = p.state ∧
    (p.checkConnectionState now sendOk).1.listeners = p.listeners ∧
    (p.checkConnectionState now sendOk).1.sendQueue = p.sendQueue := by
  unfold SocketPrivate.checkConnectionState SocketPrivate.error
  repeat' (first | split | dsimp only)
  all_goals exact ⟨rfl, rfl, rfl⟩

theorem commit_state (p : SocketPrivate) :
    (commitTransition p).1.state = p.next_state := by
  unfold commitTransition
  split
  · rfl
  case isFalse h =>
    rw [not_ne_iff] at h
    exact h.symm

theorem commit_fields (p : SocketPrivate) :
    (commitTransition p).1.next_state = p.next_state ∧
    (commitTransition p).1.sendQueue = p.sendQueue ∧
    (commitTransition p).1.listeners = p.listeners ∧
    (commitTransition p).1.last_error = p.last_error ∧
    (commitTransition p).1.current_message = p.current_message ∧
    (commitTransition p).1.lastKeepAliveSent = p.lastKeepAliveSent := by
  unfold commitTransition
  split <;> exact ⟨rfl, rfl, rfl, rfl, rfl, rfl⟩

theorem connectedAction_state (p : SocketPrivate) (inp : ConnectedInput) :
    (connectedAction p inp).sp.state = p.state := by
  unfold connectedAction
  dsimp only
  split
  · exact ((check_frame _ _ _).1).trans (receive_state _ _)
  · exact receive_state _ _

theorem connectedAction_listeners (p : SocketPrivate) (inp : ConnectedInput) :
    (connectedAction p inp).sp.listeners = p.listeners := by
  unfold connectedAction
  dsimp only
  split
  · exact ((check_frame _ _ _).2.1).trans (receive_listeners _ _)
  · exact receive_listeners _ _

theorem connectedAction_queue (p : SocketPrivate) (inp : ConnectedInput) :
    (connectedAction p inp).sent = p.sendQueue ∧
    (connectedAction p inp).sp.sendQueue = [] := by
  unfold connectedAction
  rw [drainLoop_spec]
  dsimp only
  split
  · exact ⟨List.nil_append _, ((check_frame _ _ _).2.2).trans (receive_sendQueue _ _)⟩
  · exact ⟨List.nil_append _, receive_sendQueue _ _⟩

theorem tickAction_state (p : SocketPrivate) (inp : TickInput) :
    (tickAction p inp).sp.state = p.state := by
  unfold tickAction listeningAction SocketPrivate.fatalError
  repeat' (first | split | dsimp only)
  all_goals first
    | rfl
    | exact connectedAction_state ..

theorem tickAction_listeners (p : SocketPrivate) (inp : TickInput) :
    (tickAction p inp).sp.listeners = p.listeners := by
  unfold tickAction listeningAction SocketPrivate.fatalError
  repeat' (first | split | dsimp only)
  all_goals first
    | rfl
    | exact connectedAction_listeners ..

theorem filter_of_noStateChanged {evs : List Notification} (h : noStateChanged evs) :
    evs.filter (fun n => n.2.isStateChanged) = [] := by
  rw [List.filter_eq_nil]
  intro n hn
  rcases n with ⟨l, e⟩
  cases e with
  | errorEvt e0 => simp [Event.isStateChanged]
  | messageReceived => simp [Event.isStateChanged]
  | stateChanged s => exact absurd rfl (h (l, .stateChanged s) hn s)

theorem filter_broadcast_sc (ls : List Listener) (s : SocketState) :
    (broadcast ls (.stateChanged s)).filter (fun n => n.2.isStateChanged) =
      broadcast ls (.stateChanged s) := by
  rw [List.filter_eq_self]
  intro n hn
  rw [broadcast_snd hn]
  rfl

theorem listening_accept_fail (p : SocketPrivate) (inp : TickInput)
    (hs : p.state = SocketState.Listening) (ha : inp.acceptOk = false) :
    (tick p inp).sp.state = SocketState.Connected ∧
    (tick p inp).sp.next_state = SocketState.Connected ∧
    (tick p inp).sp.current_message = none ∧
    (tick p inp).sp.last_error = some acceptError ∧
    (tick p inp).events =
      broadcast p.listeners (.errorEvt acceptError) ++
        broadcast p.listeners (.stateChanged .Connected) ∧
    loopGuard (tick p inp).sp = true := by
  simp [tick, tickAction, listeningAction, commitTransition, SocketPrivate.fatalError,
    loopGuard, hs, ha, acceptError]

theorem oom_connected_tick (p : SocketPrivate) (inp : TickInput) (cm : WireMessage)
    (w : Nat) (hs : p.state = SocketState.Connected)
    (hcm : p.current_message = some cm) (hst : cm.state = MessageState.TypeField)
    (htr : inp.connected.recv.typeRead = Int32Read.ok w)
    (halloc : inp.connected.recv.allocOk = false) :
    (tick p inp).sp.state = SocketState.Error ∧
    (tick p inp).sp.next_state = SocketState.Error ∧
    (tick p inp).sp.current_message = none ∧
    (tick p inp).sp.last_error = some oomError ∧
    (tick p inp).events =
      broadcast p.listeners (.errorEvt oomError) ++
        broadcast p.listeners (.stateChanged .Error) ∧
    loopGuard (tick p inp).sp = false := by
  simp [tick, tickAction, connectedAction, receiveNextMessage, sizeStage, typeStage,
    typeAlloc, setp, SocketPrivate.fatalError, commitTransition, loopGuard, oomError,
    hs, hcm, hst, htr, halloc]

theorem check_keepalive (p : SocketPrivate) (now : Int) (sendOk : Bool)
    (h : now - p.lastKeepAliveSent > keepAliveRate) :
    (p.checkConnectionState now sendOk).2.2.2 = [[0, 0, 0, 0]] ∧
    (p.checkConnectionState now sendOk).1.lastKeepAliveSent = now ∧
    (sendOk = false →
      (p.checkConnectionState now sendOk).1.last_error = some creError ∧
      (p.checkConnectionState now sendOk).1.next_state = SocketState.Closing) := by
  unfold SocketPrivate.checkConnectionState SocketPrivate.error
  rw [if_pos h]
  split
  case isTrue hso => simp [creError]
  case isFalse hso => simp [hso]

theorem connectedAction_keepalive (p : SocketPrivate) (inp : ConnectedInput)
    (hn : p.next_state = SocketState.Connected)
    (hnoerr : (receiveNextMessage { p with sendQueue := [] } inp.recv).errorsRaised = [])
    (htime : inp.now - p.lastKeepAliveSent > keepAliveRate) :
    (connectedAction p inp).keepalivesSent = [[0, 0, 0, 0]] ∧
    (connectedAction p inp).sp.lastKeepAliveSent = inp.now ∧
    (inp.keepaliveSendOk = false →
      (connectedAction p inp).sp.last_error = some creError ∧
      (connectedAction p inp).sp.next_state = SocketState.Closing) := by
  unfold connectedAction
  rw [drainLoop_spec]
  dsimp only
  have hnext : (receiveNextMessage { p with sendQueue := [] } inp.recv).sp.next_state =
      SocketState.Connected := by
    rw [receive_no_error_next _ _ hnoerr]
    exact hn
  have htime2 : inp.now -
      (receiveNextMessage { p with sendQueue := [] } inp.recv).sp.lastKeepAliveSent >
      keepAliveRate := by
    rw [receive_lastKA]
    exact htime
  split
  case isTrue hg =>
    refine ⟨(check_keepalive _ _ _ htime2).1, (check_keepalive _ _ _ htime2).2.1, ?_⟩
    intro hko
    exact (check_keepalive _ _ _ htime2).2.2 hko
  case isFalse hg =>
    exfalso
    rw [not_ne_iff] at hg
    rw [hnext] at hg
    cases hg

/-! Claim theorems. -/

/-- C1 (amended): every fatalError call records the error with the fatal flag,
discards the in-progress inbound frame, forces the pending state to Error and
notifies every listener; for the out-of-memory fatal error on payload
allocation the driver loop terminates at the next transition check, but for the
accept-failure fatal error the Listening branch immediately overwrites the
pending state to Connected, so the committed state is Connected and the loop
continues operating. -/
theorem fatal_error_effects_and_termination (p : SocketPrivate) (inp : TickInput)
    (cm : WireMessage) (w : Nat) (hs : p.state = SocketState.Connected)
    (hcm : p.current_message = some cm) (hst : cm.state = MessageState.TypeField)
    (htr : inp.connected.recv.typeRead = Int32Read.ok w)
    (halloc : inp.connected.recv.allocOk = false) :
    ((tick p inp).sp.state = SocketState.Error ∧
      (tick p inp).sp.next_state = SocketState.Error ∧
      (tick p inp).sp.current_message = none ∧
      (tick p inp).sp.last_error = some oomError ∧
      (tick p inp).events =
        broadcast p.listeners (.errorEvt oomError) ++
          broadcast p.listeners (.stateChanged .Error) ∧
      loopGuard (tick p inp).sp = false) ∧
    (∀ q inp2, q.state = SocketState.Listening → inp2.acceptOk = false →
      (tick q inp2).sp.last_error = some acceptError ∧
      (tick q inp2).sp.current_message = none ∧
      (tick q inp2).events =
        broadcast q.listeners (.errorEvt acceptError) ++
          broadcast q.listeners (.stateChanged .Connected) ∧
      (tick q inp2).sp.state = SocketState.Connected ∧
      loopGuard (tick q inp2).sp = true) :=
  ⟨oom_connected_tick p inp cm w hs hcm hst htr halloc,
    fun q inp2 hq ha2 =>
      ⟨(listening_accept_fail q inp2 hq ha2).2.2.2.1,
        (listening_accept_fail q inp2 hq ha2).2.2.1,
        (listening_accept_fail q inp2 hq ha2).2.2.2.2.1,
        (listening_accept_fail q inp2 hq ha2).1,
        (listening_accept_fail q inp2 hq ha2).2.2.2.2.2⟩⟩

/-- C1 witness: at a concrete connected socket whose payload allocation fails,
the committed state is Error. -/
theorem fatal_error_effects_and_termination_witness :
    (tick oomFix oomFixInput).sp.state = SocketState.Error :=
  (fatal_error_effects_and_termination oomFix oomFixInput
    { state := MessageState.TypeField, size := 2 } 5 rfl rfl rfl rfl rfl).1.1

/-- C1 counterexample: after the accept-failure fatal error the notified fatal
error is recorded, yet the committed state is Connected, not Error, and the
driver loop keeps running — refuting that every fatal error forces the state to
Error and terminates the loop. -/
theorem fatal_error_termination_cex :
    (tick listenFix { acceptOk := false }).sp.last_error =
      some { code := ErrorCode.AcceptFailedError, fatal := true } ∧
    (tick listenFix { acceptOk := false }).events =
      [(0, Event.errorEvt { code := ErrorCode.AcceptFailedError, fatal := true }),
        (0, Event.stateChanged SocketState.Connected)] ∧
    (tick listenFix { acceptOk := false }).sp.state ≠ SocketState.Error ∧
    loopGuard (tick listenFix { acceptOk := false }).sp = true := by
  decide

/-- C2: in the Listening state, when accept fails the fatal AcceptFailedError
is recorded and notified, and yet the pending state is forced to Connected, so
the state committed at the end of that tick is Connected, not Error, and the
driver loop keeps running. -/
theorem accept_failure_forces_connected (p : SocketPrivate) (inp : TickInput)
    (hs : p.state = SocketState.Listening) (ha : inp.acceptOk = false) :
    (tick p inp).sp.state = SocketState.Connected ∧
    (tick p inp).sp.next_state = SocketState.Connected ∧
    (tick p inp).sp.last_error = some acceptError ∧
    (tick p inp).events =
      broadcast p.listeners (.errorEvt acceptError) ++
        broadcast p.listeners (.stateChanged .Connected) ∧
    loopGuard (tick p inp).sp = true :=
  ⟨(listening_accept_fail p inp hs ha).1,
    (listening_accept_fail p inp hs ha).2.1,
    (listening_accept_fail p inp hs ha).2.2.2.1,
    (listening_accept_fail p inp hs ha).2.2.2.2.1,
    (listening_accept_fail p inp hs ha).2.2.2.2.2⟩

/-- C2 witness: the concrete listening socket commits Connected after a failed
accept. -/
theorem accept_failure_forces_connected_witness :
    (tick listenFix { acceptOk := false }).sp.state = SocketState.Connected :=
  (accept_failure_forces_connected listenFix { acceptOk := false } rfl rfl).1

/-- C3: while decoding the size field, a declared length whose 32-bit wire word
decodes negative (which includes every oversized value of 2^31 or more) raises
exactly one non-fatal protocol error and the connection stays in its current
state and pending state, with the frame still at the size stage; and from the
size stage the pending state can only become Error when the payload allocation
fails. -/
theorem size_decode_error_severity (p : SocketPrivate) (cm : WireMessage)
    (hcm : p.current_message = some cm) (hst : cm.state = MessageState.Size)
    (hne : p.next_state ≠ SocketState.Error) :
    (∀ inp w, inp.sizeRead = Int32Read.ok w → toSigned w < 0 →
      (receiveNextMessage p inp).errorsRaised =
        [{ code := ErrorCode.ReceiveFailedError, fatal := false }] ∧
      (receiveNextMessage p inp).events =
        broadcast p.listeners (.errorEvt { code := .ReceiveFailedError, fatal := false }) ∧
      (receiveNextMessage p inp).sp.state = p.state ∧
      (receiveNextMessage p inp).sp.next_state = p.next_state ∧
      ∃ m, (receiveNextMessage p inp).sp.current_message = some m ∧
        m.state = MessageState.Size) ∧
    (∀ inp, (receiveNextMessage p inp).sp.next_state = SocketState.Error →
      inp.allocOk = false) := by
  constructor
  · intro inp w hr hneg
    simp [receiveNextMessage, sizeStage, hcm, hst, hr, hneg, SocketPrivate.error, setp]
  · intro inp hErr
    rcases receive_next p inp with h1 | ⟨_, h2, _⟩
    · rw [hErr] at h1
      exact absurd h1.symm hne
    · exact h2

/-- C3 witness: a wire word of 2^31 decodes negative and raises the non-fatal
Size invalid error at the concrete size-stage socket. -/
theorem size_decode_error_severity_witness :
    (receiveNextMessage sizeFix { sizeRead := Int32Read.ok (2 ^ 31) }).errorsRaised =
      [{ code := ErrorCode.ReceiveFailedError, fatal := false }] :=
  ((size_decode_error_severity sizeFix { state := MessageState.Size } rfl rfl
    (by decide)).1 { sizeRead := Int32Read.ok (2 ^ 31) } (2 ^ 31) rfl (by decide)).1

/-- C4: while Connected, if the receive phase raised no error this tick and
strictly more than 500 ms elapsed since lastKeepAliveSent, exactly one 4-byte
all-zero keepalive frame is sent and lastKeepAliveSent is reset to now; if that
keepalive send fails, the non-fatal ConnectionResetError is recorded and the
pending (and committed) state becomes Closing. -/
theorem keepalive_after_interval (p : SocketPrivate) (inp : TickInput)
    (hs : p.state = SocketState.Connected)
    (hn : p.next_state = SocketState.Connected)
    (hnoerr : (receiveNextMessage { p with sendQueue := [] }
      inp.connected.recv).errorsRaised = [])
    (htime : inp.connected.now - p.lastKeepAliveSent > keepAliveRate) :
    (tick p inp).keepalivesSent = [[0, 0, 0, 0]] ∧
    (tick p inp).sp.lastKeepAliveSent = inp.connected.now ∧
    (inp.connected.keepaliveSendOk = false →
      (tick p inp).sp.last_error = some creError ∧
      (tick p inp).sp.next_state = SocketState.Closing ∧
      (tick p inp).sp.state = SocketState.Closing) := by
  have ha := connectedAction_keepalive p inp.connected hn hnoerr htime
  have hact : tickAction p inp = connectedAction p inp.connected := by
    unfold tickAction
    simp only [hs]
  unfold tick
  dsimp only
  rw [hact]
  refine ⟨ha.1, ?_, ?_⟩
  · rw [(commit_fields _).2.2.2.2.2]
    exact ha.2.1
  · intro hko
    refine ⟨?_, ?_, ?_⟩
    · rw [(commit_fields _).2.2.2.1]
      exact (ha.2.2 hko).1
    · rw [(commit_fields _).1]
      exact (ha.2.2 hko).2
    · rw [commit_state]
      exact (ha.2.2 hko).2

/-- C4 witness: after 501 ms of quiet while Connected, exactly one all-zero
4-byte keepalive frame is sent. -/
theorem keepalive_after_interval_witness :
    (tick kaFix kaFixInput).keepalivesSent = [[0, 0, 0, 0]] :=
  (keepalive_after_interval kaFix kaFixInput rfl rfl (by decide) (by decide)).1

/-- C5: a receive cycle that reads a 4-byte all-zero header consumes those 4
bytes, dispatches no message, records no error, emits no notification and
leaves the parse stage at the header stage. -/
theorem zero_header_is_keepalive (p : SocketPrivate) (inp : RecvInput)
    (hcm : (p.current_message.getD {}).state = MessageState.Header)
    (hr : inp.headerRead = Int32Read.ok 0) :
    (receiveNextMessage p inp).consumed = 4 ∧
    (receiveNextMessage p inp).dispatched = none ∧
    (receiveNextMessage p inp).errorsRaised = [] ∧
    (receiveNextMessage p inp).events = [] ∧
    (receiveNextMessage p inp).sp.last_error = p.last_error ∧
    ∃ m, (receiveNextMessage p inp).sp.current_message = some m ∧
      m.state = MessageState.Header := by
  simp [receiveNextMessage, hcm, hr, readInt32, toSigned, int32Consumed, setp]

/-- C5 witness: the concrete all-zero header read consumes 4 bytes and nothing
else happens. -/
theorem zero_header_is_keepalive_witness :
    (receiveNextMessage {} { headerRead := Int32Read.ok 0 }).consumed = 4 :=
  (zero_header_is_keepalive {} { headerRead := Int32Read.ok 0 } rfl rfl).1

/-- C6: a 4-byte header read whose top 16 bits differ from the magic value
0x2BAD (and whose word is nonzero, a zero word being a keepalive by definition)
raises exactly one non-fatal ReceiveFailedError, notified once per listener,
the parse stage stays at the header stage and the connection state and pending
state are unchanged. -/
theorem header_signature_mismatch (p : SocketPrivate) (inp : RecvInput) (w : Nat)
    (hcm : (p.current_message.getD {}).state = MessageState.Header)
    (hr : inp.headerRead = Int32Read.ok w)
    (hnz : toSigned w ≠ 0)
    (hsig : SIG (toSigned w) ≠ ARCUS_SIGNATURE) :
    (receiveNextMessage p inp).errorsRaised =
      [{ code := ErrorCode.ReceiveFailedError, fatal := false }] ∧
    (receiveNextMessage p inp).events =
      broadcast p.listeners (.errorEvt { code := .ReceiveFailedError, fatal := false }) ∧
    (receiveNextMessage p inp).sp.state = p.state ∧
    (receiveNextMessage p inp).sp.next_state = p.next_state ∧
    (receiveNextMessage p inp).dispatched = none ∧
    ∃ m, (receiveNextMessage p inp).sp.current_message = some m ∧
      m.state = MessageState.Header := by
  simp [receiveNextMessage, hcm, hr, hnz, hsig, readInt32, SocketPrivate.error, setp]

/-- C6 witness: the concrete wrong-signature header raises exactly one
non-fatal ReceiveFailedError. -/
theorem header_signature_mismatch_witness :
    (receiveNextMessage { listeners := [9] }
      { headerRead := Int32Read.ok 0x11110000 }).errorsRaised =
      [{ code := ErrorCode.ReceiveFailedError, fatal := false }] :=
  (header_signature_mismatch { listeners := [9] }
    { headerRead := Int32Read.ok 0x11110000 } 0x11110000 rfl rfl (by decide)
    (by decide)).1

/-- C7: the Connected tick drains the entire outbound queue atomically and
sends the drained messages in exactly the order they were enqueued, each
exactly once, leaving the queue empty. -/
theorem outbound_drain_fifo (p : SocketPrivate) (inp : TickInput)
    (hs : p.state = SocketState.Connected) :
    (tick p inp).sent = p.sendQueue ∧ (tick p inp).sp.sendQueue = [] := by
  unfold tick
  dsimp only
  constructor
  · show (tickAction p inp).sent = p.sendQueue
    unfold tickAction
    simp only [hs]
    exact (connectedAction_queue p inp.connected).1
  · rw [(commit_fields _).2.1]
    show (tickAction p inp).sp.sendQueue = []
    unfold tickAction
    simp only [hs]
    exact (connectedAction_queue p inp.connected).2

/-- C7 witness: three queued messages are sent in enqueue order, none twice,
none left behind. -/
theorem outbound_drain_fifo_witness :
    (tick fifoFix {}).sent = [5, 6, 7] :=
  (outbound_drain_fifo fifoFix {} rfl).1

/-- C8: at the end of every driver tick the committed state equals the pending
state left by the per-state action, and the stateChanged notifications of the
tick are exactly one broadcast to every registered listener in registration
order when the pending state differs from the current state, and none
otherwise. -/
theorem transition_commit_exactly_once (p : SocketPrivate) (inp : TickInput) :
    (tick p inp).sp.state = (tickAction p inp).sp.next_state ∧
    (tick p inp).events.filter (fun n => n.2.isStateChanged) =
      (if (tickAction p inp).sp.next_state = p.state then []
        else broadcast p.listeners (.stateChanged (tickAction p inp).sp.next_state)) := by
  constructor
  · show (commitTransition (tickAction p inp).sp).1.state = _
    exact commit_state _
  · show ((tickAction p inp).events ++ (commitTransition (tickAction p inp).sp).2).filter _ = _
    rw [List.filter_append, filter_of_noStateChanged (tickAction_noSC p inp)]
    unfold commitTransition
    split
    case isTrue h =>
      rw [if_neg, List.nil_append, filter_broadcast_sc, tickAction_listeners]
      rw [tickAction_state] at h
      exact h
    case isFalse h =>
      rw [not_ne_iff] at h
      rw [if_pos]
      · rfl
      · rw [← tickAction_state p inp]
        exact h

/-- C9: a header-stage read that returns fewer than 4 bytes leaves the header
variable 0, so the cycle returns through the keepalive branch with no error, no
notification and the parse stage still at the header stage — yielding exactly
the same socket state, notifications and dispatch as an actual all-zero
keepalive read. -/
theorem failed_header_read_is_keepalive (p : SocketPrivate) (inp : RecvInput)
    (b : Bool) (hcm : (p.current_message.getD {}).state = MessageState.Header)
    (hr : inp.headerRead = Int32Read.fail b) :
    (receiveNextMessage p inp).sp =
      (receiveNextMessage p { inp with headerRead := Int32Read.ok 0 }).sp ∧
    (receiveNextMessage p inp).events =
      (receiveNextMessage p { inp with headerRead := Int32Read.ok 0 }).events ∧
    (receiveNextMessage p inp).dispatched =
      (receiveNextMessage p { inp with headerRead := Int32Read.ok 0 }).dispatched ∧
    (receiveNextMessage p inp).events = [] ∧
    (receiveNextMessage p inp).errorsRaised = [] ∧
    (receiveNextMessage p inp).sp.last_error = p.last_error ∧
    ∃ m, (receiveNextMessage p inp).sp.current_message = some m ∧
      m.state = MessageState.Header := by
  simp [receiveNextMessage, hcm, hr, readInt32, toSigned, int32Consumed, setp]

/-- C9 witness: at the concrete fresh socket a timed-out header read produces
the same socket state as an all-zero keepalive read. -/
theorem failed_header_read_is_keepalive_witness :
    (receiveNextMessage {} { headerRead := Int32Read.fail true }).sp =
      (receiveNextMessage {} { headerRead := Int32Read.ok 0 }).sp :=
  (failed_header_read_is_keepalive {} { headerRead := Int32Read.fail true } true
    rfl rfl).1

/-- C10: a frame whose type read failed hard is marked invalid yet still has
its payload buffer allocated and its stage advanced to the payload stage;
payload bytes accumulate across cycles while the frame is incomplete; a frame
that completes while invalid is discarded with no dispatch, no error and no
notification; and handleMessage is only ever invoked on frames that are both
complete and valid. -/
theorem invalid_frame_lifecycle :
    (∀ p cm inp, p.current_message = some cm → cm.state = MessageState.TypeField →
      inp.typeRead = Int32Read.fail false → inp.allocOk = true →
      inp.dataRead = BytesRead.fail true →
      (receiveNextMessage p inp).events = [] ∧
      (receiveNextMessage p inp).errorsRaised = [] ∧
      (receiveNextMessage p inp).dispatched = none ∧
      (receiveNextMessage p inp).sp.current_message =
        some { cm with
          valid := false
          dataAllocated := true
          typeTag := 0
          state := MessageState.Data }) ∧
    (∀ p cm inp bytes, p.current_message = some cm → cm.state = MessageState.Data →
      inp.dataRead = BytesRead.ok bytes →
      cm.received + (bytes.take cm.getRemainingSize).length < cm.size →
      (receiveNextMessage p inp).events = [] ∧
      (receiveNextMessage p inp).errorsRaised = [] ∧
      (receiveNextMessage p inp).dispatched = none ∧
      (receiveNextMessage p inp).sp.current_message =
        some { cm with
          data := cm.data ++ bytes.take cm.getRemainingSize
          received := cm.received + (bytes.take cm.getRemainingSize).length }) ∧
    (∀ p cm inp bytes, p.current_message = some cm → cm.state = MessageState.Data →
      cm.valid = false → inp.dataRead = BytesRead.ok bytes →
      cm.size ≤ cm.received + (bytes.take cm.getRemainingSize).length →
      (receiveNextMessage p inp).events = [] ∧
      (receiveNextMessage p inp).errorsRaised = [] ∧
      (receiveNextMessage p inp).dispatched = none ∧
      (receiveNextMessage p inp).sp.current_message = none) ∧
    (∀ p inp m, (∀ cm, p.current_message = some cm → cm.state ≠ MessageState.Dispatch) →
      (receiveNextMessage p inp).dispatched = some m →
      m.isComplete = true ∧ m.isValid = true) := by
  refine ⟨?_, ?_, ?_, ?_⟩
  · intro p cm inp hcm hst htr halloc hdr
    simp [receiveNextMessage, sizeStage, typeStage, typeAlloc, dataStage, dispatchStage,
      setp, hcm, hst, htr, halloc, hdr]
  · intro p cm inp bytes hcm hst hdr hlt
    have hnc : ¬(cm.size ≤ cm.received + (bytes.take cm.getRemainingSize).length) :=
      Nat.not_le.mpr hlt
    simp only [WireMessage.getRemainingSize, List.length_take] at hnc
    simp [receiveNextMessage, sizeStage, typeStage, dataStage, dispatchStage, setp,
      WireMessage.isComplete, WireMessage.getRemainingSize, hcm, hst, hdr, hnc]
  · intro p cm inp bytes hcm hst hv hdr hcomp
    simp only [WireMessage.getRemainingSize, List.length_take] at hcomp
    simp [receiveNextMessage, sizeStage, typeStage, dataStage, dispatchStage, setp,
      WireMessage.isComplete, WireMessage.isValid, WireMessage.getRemainingSize,
      hcm, hst, hv, hdr, hcomp]
  · intro p inp m hD h
    rcases receive_dispatched p inp m h with h1 | ⟨h2, h3⟩
    · exact ⟨h1.1, h1.2⟩
    · exact absurd h3 (hD m h2)

/-- C10 witness: the concrete invalid frame is not dispatched. -/
theorem invalid_frame_lifecycle_witness :
    (receiveNextMessage typeFailFix typeFailInput).dispatched = none :=
  (invalid_frame_lifecycle.1 typeFailFix { state := MessageState.TypeField, size := 3 }
    typeFailInput rfl rfl rfl rfl rfl).2.2.1


end Arcus
